import Mathlib

/-!
Shallow embedding of the aggregation and classification pipeline of the
react-analytics dashboard (source files `streamlit_app.py`,
`streamlit_app_2.py`, `streamlit_app_3.py`).  The three scripts share one
data model: rows of a delivery-challan CSV, a static category map, a
customer-tier classifier, and a family of grouped/pivoted views.  Monetary
amounts and quantities are modelled as rationals (pandas floats carry exact
decimal values in all inputs of interest); machine-float rounding is not
load-bearing for any property stated here.
-/

/-- One raw transaction row of the CSV.  Fields mirror the columns used by
the scripts: `Delivery Challan Number`, `Challan Date` (raw string),
`Customer Name`, `Item Name`, `QuantityOrdered`, `Item Total`.  String
fields are taken after the scripts' normalisation (`str.lower` on item
name, `str.strip` on customer name), which all three scripts apply before
any classification or grouping. -/
structure Row where
  challanNo : String
  challanDate : String
  customerName : String
  itemName : String
  qty : ℚ
  itemTotal : ℚ
deriving DecidableEq

/-- The static category map, a literal identical in all three scripts:
category name paired with the list of item names filed under it. -/
def category_map : List (String × List String) := [
  ("Bio-Fertilizers", [
    "peek sanjivani - consortia", "bio surakshak - tryka (trichoderma)",
    "peek sanjivani - p (psb)", "sanjivani kit (5 ltrs)", "peek sanjivani - k (kmb)",
    "peek sanjivani - p (azotobacter)", "bio surakshak - ryzia (metarhizium)",
    "bio surakshak - rekha (psudomonas)", "peek sanjivani - n (azotobacter)",
    "sanjivani granules", "rhizo-vishwa (200 gm)"]),
  ("Micronutrients", [
    "nutrisac kit - (50 kg)", "nutrisac kit - (25 kg)", "nutrisac kit - (10 kg)",
    "dimond kit 50kg", "micromax kit (50 kg)", "ferrous sulphate (feso4) - 20 kg",
    "nutrisac mg -20kg", "nutrisac fe - 10 kg", "nutrisac mg - 10 kg",
    "nutrisac fe  - 20 kg", "jackpot kit", "orient kit - (50 kg)",
    "magnesium sulphate (mgso4) - 20 kg", "orient kit - (53 kg)", "diamond kit 50kg",
    "ferrous sulphate - feso4 (20 kg bag)"]),
  ("Chelated Micronutrients", [
    "iron man - eddha ferrous (500 gm)", "micro man - fe (500 gm)",
    "micro man - fe (250 gm)", "micro man - zn (250 gm)", "micro man - zn (500 gm)",
    "micro man - pro (1 ltr)", "micro man - pro (500 ml)", "micro man pro (250 ml)",
    "iron man - eddha ferrous (1 kg)"]),
  ("Bio-Stimulants", [
    "titanic kit - (25 kg)", "jeeto - 95 (100 ml)", "jeeto - 95 (200 ml)",
    "flora - 95 (100 ml)", "flora - 95 (200 ml)", "mantra humic acid (500 gm)",
    "mantra humic acid (250 gm)", "mantra humic acid (1 kg)", "jeeto - 95 (400 ml)",
    "pickup - 99 (100 ml)", "pickup - 99 (200 ml)", "pickup - 99 (400 ml)",
    "micro man plus (250 gm)", "micro man plus (500 gm)", "flora - 95 (400 ml)",
    "boomer - 90 (100 ml)", "boomer - 90 (200 ml)", "boomer - 90 (400 ml)",
    "bingo 100 ml", "bingo 200 ml", "bingo 400 ml", "rainbow 200", "rainbow 400",
    "rainbow 100ml", "mantra humic acid (100 gm)", "zumbaa", "turma max", "simba",
    "captain (100 ml)", "ferrari (200 ml)", "ferrari (400 ml)", "bio stimulant - f",
    "bio stimulant - j", "ozone power (10 kg bucket)", "fountain 1 liter",
    "fountain 500 ml"]),
  ("Other Bulk Orders", [
    "biomass briquette", "nandi choona", "calcimag"])]

/-- The flattened `item_to_category` association built by the scripts'
dict comprehension, in insertion order: for each category in map order,
each item maps to that category.  A Python dict keeps the last written
value for a duplicated key, so lookups below read the list from the end. -/
def item_to_category : List (String × String) :=
  (category_map.map (fun p => p.2.map (fun item => (item, p.1)))).flatten

/-- Category lookup as performed by
`df["Item Name"].map(item_to_category).fillna("Uncategorized")`: the
dict's binding for the name when present (last write wins), otherwise the
sentinel "Uncategorized". -/
def categorize (name : String) : String :=
  (item_to_category.reverse.lookup name).getD "Uncategorized"

/-- The customer-tier classifier `classify_customer`, identical in
`streamlit_app_2.py` and `streamlit_app_3.py` (Python underscored literals
10_00_000 = 1000000, 5_00_000 = 500000, 1_00_000 = 100000). -/
def classify_customer (amount : ℚ) : String :=
  if amount > 1000000 then "Gold"
  else if amount > 500000 then "Silver"
  else if amount > 100000 then "Bronze"
  else "Copper"

/-- Sorted unique keys, as produced by a pandas `groupby` on a string
column (groupby sorts group keys ascending and keeps each key once). -/
def sortedKeys (l : List String) : List String :=
  List.insertionSort (· ≤ ·) l.dedup

/-- The rows of one customer: `df[df["Customer Name"] == customer]`. -/
def rowsOf (rows : List Row) (c : String) : List Row :=
  rows.filter (fun r => r.customerName == c)

/-- One customer's total item-total sum over a row set (the "Total Sales"
or "Total Order Amount" aggregate of the groupby). -/
def totalSpend (rows : List Row) (c : String) : ℚ :=
  ((rowsOf rows c).map Row.itemTotal).sum

/-- One customer's count of distinct challan numbers
(`pd.Series.nunique` over `Delivery Challan Number`). -/
def nuniqueChallans (rows : List Row) (c : String) : ℕ :=
  ((rowsOf rows c).map Row.challanNo).dedup.length

/-- One row of the Dealer Summary of `streamlit_app.py`. -/
structure DealerRow where
  customerName : String
  totalSales : ℚ
  totalOrders : ℕ
deriving DecidableEq

/-- The groupby aggregate feeding `dealer_stats`: one row per distinct
customer (keys ascending), with Total Sales and Total Orders. -/
def dealer_stats_unsorted (rows : List Row) : List DealerRow :=
  (sortedKeys (rows.map Row.customerName)).map
    (fun c => ⟨c, totalSpend rows c, nuniqueChallans rows c⟩)

/-- The `dealer_stats` table after `sort_values(by="Total Sales", ascending=False)`.
The script uses the default `kind="quicksort"`, whose order among rows
with equal Total Sales is unspecified (pandas documents only `mergesort`
and `stable` as stable kinds); this model fixes one permutation sorted
descending by Total Sales, and every property proved about it below is
invariant under permuting rows with equal keys. -/
def dealer_stats (rows : List Row) : List DealerRow :=
  List.insertionSort (fun a b => b.totalSales ≤ a.totalSales)
    (dealer_stats_unsorted rows)

/-- One row of the `summary` table of `streamlit_app_2.py`.  The per-
category display-string columns of that table are modelled separately
(see `pct_full` below); this structure keeps the numeric columns and the
Customer Type computed from Total Order Amount. -/
structure SummaryRow where
  customerName : String
  totalOrders : ℕ
  totalOrderAmount : ℚ
  customerType : String
deriving DecidableEq

/-- The `summary` groupby of `streamlit_app_2.py` with its
`Customer Type` column: one row per distinct customer, Customer Type
applied to the full-dataset Total Order Amount. -/
def summary2 (rows : List Row) : List SummaryRow :=
  (sortedKeys (rows.map Row.customerName)).map
    (fun c => ⟨c, nuniqueChallans rows c, totalSpend rows c,
      classify_customer (totalSpend rows c)⟩)

/-- Round to the nearest integer with ties to even, the rounding used by
pandas/numpy `round`. -/
def roundHalfEven (x : ℚ) : ℤ :=
  let f := ⌊x⌋
  let frac := x - f
  if frac < 1/2 then f
  else if 1/2 < frac then f + 1
  else if Even f then f else f + 1

/-- Round to one decimal place, `Series.round(1)`. -/
def round1 (x : ℚ) : ℚ :=
  (roundHalfEven (x * 10) : ℚ) / 10

/-- One row of the per-customer category share table of
`streamlit_app.py`: category, item-total sum, percentage column.  pandas
computes the percentage with float division, where a zero denominator
yields NaN (for 0/0) or a signed infinity, never a finite percentage;
the column is modelled over ℚ with `none` standing for that non-finite
outcome (`round(1)` maps NaN to NaN). -/
structure ShareRow where
  category : String
  itemTotal : ℚ
  pct : Option ℚ
deriving DecidableEq

/-- The category share computation of `streamlit_app.py` for one
customer: group the customer's rows by category, sum Item Total, and
divide each sum by the grand total, times 100, rounded to one decimal.
The script guards nothing: the division is performed even when the
customer's total is zero. -/
def category_share (rows : List Row) (c : String) : List ShareRow :=
  let data := rowsOf rows c
  let cats := sortedKeys (data.map (fun r => categorize r.itemName))
  let amts := cats.map (fun cat =>
    (cat, ((data.filter (fun r => categorize r.itemName == cat)).map
      Row.itemTotal).sum))
  let total := (amts.map Prod.snd).sum
  amts.map (fun p =>
    ⟨p.1, p.2, if total = 0 then none else some (round1 (p.2 / total * 100))⟩)

/-- The per-category amount of `streamlit_app_2.py`:
`df[df["Category"] == cat].groupby("Customer Name")["Item Total"].sum()`
read off for one customer, with `fillna(0)` when the customer has no rows
of that category. -/
def amt_full (rows : List Row) (cat c : String) : ℚ :=
  ((rows.filter (fun r => categorize r.itemName == cat
    && r.customerName == c)).map Row.itemTotal).sum

/-- The guarded percentage of `streamlit_app_2.py`:
`total_amt = summary["Total Order Amount"].replace(0, 1)` and
`pct_full = amt_full / total_amt * 100`, read off for one customer. -/
def pct_full (rows : List Row) (cat c : String) : ℚ :=
  let total := totalSpend rows c
  amt_full rows cat c / (if total = 0 then 1 else total) * 100

/-- A single transaction whose Item Total is zero, making its customer's
total spend zero. -/
def zeroTotalRow : Row := ⟨"CH1", "2024-01-05", "A", "simba", 1, 0⟩

/-- A calendar date, the result of a successful `pd.to_datetime` parse. -/
structure Date where
  year : ℕ
  month : ℕ
  day : ℕ
deriving DecidableEq

/-- The numeric value of a decimal digit character, `none` on any other
character. -/
def digit? (c : Char) : Option ℕ :=
  if 48 ≤ c.toNat ∧ c.toNat ≤ 57 then some (c.toNat - 48) else none

/-- Model of parsing one Challan Date cell with `pd.to_datetime`,
restricted to the ISO shape YYYY-MM-DD taken by the parseable cells;
any string not of this shape is unparseable (pandas raises or coerces to
NaT, according to its `errors` argument). -/
def parseDate (s : String) : Option Date :=
  match s.toList with
  | [y1, y2, y3, y4, s1, m1, m2, s2, d1, d2] =>
    match digit? y1, digit? y2, digit? y3, digit? y4,
        digit? m1, digit? m2, digit? d1, digit? d2 with
    | some a, some b, some c, some d, some e, some f, some g, some h =>
      if s1 = '-' ∧ s2 = '-' then
        let m := e * 10 + f
        let dd := g * 10 + h
        if 1 ≤ m ∧ m ≤ 12 ∧ 1 ≤ dd ∧ dd ≤ 31 then
          some ⟨((a * 10 + b) * 10 + c) * 10 + d, m, dd⟩
        else none
      else none
    | _, _, _, _, _, _, _, _ => none
  | _ => none

/-- Model of `pd.to_datetime(df["Challan Date"])` as called by `streamlit_app.py`
with the default errors="raise": the annotated row list, or `none` when
any row's date fails to parse, modelling the ValueError that aborts the
whole load. -/
def to_datetime_strict (rows : List Row) : Option (List (Row × Date)) :=
  rows.mapM (fun r => (parseDate r.challanDate).map (fun d => (r, d)))

/-- Month-abbreviation table used by strftime's %b field. -/
def monthAbbrevs : List String :=
  ["Jan", "Feb", "Mar", "Apr", "May", "Jun",
   "Jul", "Aug", "Sep", "Oct", "Nov", "Dec"]

/-- Two-digit zero-padded decimal rendering (strftime's %y field). -/
def twoDigit (n : ℕ) : String :=
  String.mk [Nat.digitChar (n / 10 % 10), Nat.digitChar (n % 10)]

/-- A "%b %y" month label built from a pair of two-digit year and month
number. -/
def fmtLabel (p : ℕ × ℕ) : String :=
  monthAbbrevs.getD (p.2 - 1) "" ++ " " ++ twoDigit p.1

/-- The strftime "%b %y" rendering of a date. -/
def monthLabel (d : Date) : String :=
  fmtLabel (d.year % 100, d.month)

/-- The Month column of `streamlit_app_3.py`: the challan date column is
parsed with errors="coerce" (NaT on failure), and NaT carries through
`dt.strftime("%b %y")` as a missing month. -/
def rowMonth (r : Row) : Option String :=
  (parseDate r.challanDate).map monthLabel

/-- A transaction whose challan date string parses as no date. -/
def badDateRow : Row := ⟨"CH1", "not-a-date", "A", "simba", 2, 500⟩

/-- Substring occurrence on character lists (needle first), the
containment test behind pandas `str.contains` for a literal needle. -/
def listIsInfixOf (l₁ l₂ : List Char) : Bool :=
  match l₂ with
  | [] => l₁.isEmpty
  | c :: t => l₁.isPrefixOf (c :: t) || listIsInfixOf l₁ t

/-- Substring test `hay.str.contains(needle)` for a literal needle. -/
def strContains (hay needle : String) : Bool :=
  listIsInfixOf needle.toList hay.toList

/-- An annotated row of `streamlit_app_3.py`: the raw row plus its
Product Category column, the Customer Type merged in from
`customer_summary` (a left merge on the unique customer name, so each
row carries the tier computed from its customer's full-dataset total),
and the Month column. -/
structure Row3 where
  row : Row
  productCategory : String
  customerType : String
  month : Option String
deriving DecidableEq

/-- The annotation pipeline of `streamlit_app_3.py` up to the Month
column: Category map lookup, tier merge, strftime month. -/
def annotate3 (rows : List Row) : List Row3 :=
  rows.map (fun r =>
    ⟨r, categorize r.itemName,
      classify_customer (totalSpend rows r.customerName),
      rowMonth r⟩)

/-- The three sequential filter blocks of `streamlit_app_3.py`, shared
verbatim by `filtered_df` and the heatmap data: Product Category
equality when the selection is not "All" (modelled `none`), Customer
Type equality likewise, and an item-name substring test only when the
stripped lowercased search term is nonempty (the empty string is falsy
in Python, so the block is skipped).  `str.contains(search_term,
case=False, na=False)` compares case-insensitively, modelled by
lowercasing both sides; `na=False` is moot since modelled item names are
total strings. -/
def applyFilters (l : List Row3) (selProd selCust : Option String)
    (search : String) : List Row3 :=
  let f1 := match selProd with
    | none => l
    | some c => l.filter (fun r => r.productCategory == c)
  let f2 := match selCust with
    | none => f1
    | some t => f1.filter (fun r => r.customerType == t)
  if search = "" then f2
  else f2.filter (fun r => strContains r.row.itemName.toLower search.toLower)

/-- The `filtered_df` view of `streamlit_app_3.py`. -/
def filtered_df (rows : List Row) (selProd selCust : Option String)
    (search : String) : List Row3 :=
  applyFilters (annotate3 rows) selProd selCust search

/-- The same view built with no search filter stage at all, the
reference point for C8. -/
def filtered_df_nosearch (rows : List Row)
    (selProd selCust : Option String) : List Row3 :=
  let f1 := match selProd with
    | none => annotate3 rows
    | some c => (annotate3 rows).filter (fun r => r.productCategory == c)
  match selCust with
  | none => f1
  | some t => f1.filter (fun r => r.customerType == t)

/-- The dealer search of `streamlit_app.py`:
`dealer_stats[dealer_stats["Customer Name"].str.lower().str.contains(search)]`
with `search` already stripped and lowercased by the script. -/
def filtered_dealers (stats : List DealerRow) (search : String) :
    List DealerRow :=
  stats.filter (fun r => strContains r.customerName.toLower search)

/-- The summary filtering of `streamlit_app_2.py`: the summary table
(tiers already attached) filtered by Customer Type equality when a type
other than "All" is selected, then by customer-name equality when a
customer other than "All" is selected. -/
def filtered_summary2 (rows : List Row) (selType selName : Option String) :
    List SummaryRow :=
  let f1 := match selType with
    | none => summary2 rows
    | some t => (summary2 rows).filter (fun s => s.customerType == t)
  match selName with
  | none => f1
  | some c => f1.filter (fun s => s.customerName == c)

/-- A transaction used to witness C9 concretely. -/
def tierRow : Row := ⟨"CH1", "2024-01-05", "A", "simba", 2, 1000⟩

/-- The annotated form of `tierRow` in its singleton dataset. -/
def tierRow3 : Row3 := ⟨tierRow, "Bio-Stimulants", "Copper", rowMonth tierRow⟩

/-- strptime lookup for the "%b" field, on exactly the twelve
abbreviations strftime emits. -/
def parseMonth3 (s : String) : Option ℕ :=
  if s = "Jan" then some 1
  else if s = "Feb" then some 2
  else if s = "Mar" then some 3
  else if s = "Apr" then some 4
  else if s = "May" then some 5
  else if s = "Jun" then some 6
  else if s = "Jul" then some 7
  else if s = "Aug" then some 8
  else if s = "Sep" then some 9
  else if s = "Oct" then some 10
  else if s = "Nov" then some 11
  else if s = "Dec" then some 12
  else none

/-- Parsing `pd.to_datetime(label, format="%b %y")` of one month label: three
letters, a space, two digits, read back as the (two-digit year, month)
pair. -/
def parseMonthLabel (s : String) : Option (ℕ × ℕ) :=
  match s.toList with
  | [a, b, c, ' ', d1, d2] =>
    match parseMonth3 (String.mk [a, b, c]), digit? d1, digit? d2 with
    | some m, some x, some y => some (x * 10 + y, m)
    | _, _, _ => none
  | _ => none

/-- Python's %y pivot: two-digit years 69 to 99 mean 19xx, 00 to 68 mean
20xx. -/
def canonYear (y2 : ℕ) : ℕ :=
  if 69 ≤ y2 then 1900 + y2 else 2000 + y2

/-- Calendar order on parsed month labels, linearised as a month count. -/
def monthKeyLE (a b : ℕ × ℕ) : Prop :=
  canonYear a.1 * 12 + a.2 ≤ canonYear b.1 * 12 + b.2

instance : DecidableRel monthKeyLE := fun _ _ => Nat.decLe _ _

instance : IsTotal (ℕ × ℕ) monthKeyLE := ⟨fun _ _ => Nat.le_total _ _⟩

instance : IsTrans (ℕ × ℕ) monthKeyLE := ⟨fun _ _ _ h h2 => Nat.le_trans h h2⟩

/-- Label `a` is calendar-no-later than label `b`: both parse under
"%b %y" and the first key is at most the second. -/
def labelCalendarLE (a b : String) : Prop :=
  ∃ p q, parseMonthLabel a = some p ∧ parseMonthLabel b = some q ∧
    monthKeyLE p q

/-- The month columns of the quantity pivot of `streamlit_app_3.py`:
`groupby([..., "Month"]).sum().unstack(fill_value=0)` drops rows with a
missing month and emits one column per distinct month label, in sorted
label-string order (lexicographic), not date order. -/
def pivotMonthCols (rows : List Row) (selProd selCust : Option String)
    (search : String) : List String :=
  sortedKeys ((filtered_df rows selProd selCust search).filterMap Row3.month)

/-- The heatmap base of `streamlit_app_3.py`: a copy of the annotated
table with every "Other Bulk Orders" row removed unconditionally, before
the same three filter blocks are applied again. -/
def heatmap_data (rows : List Row) (selProd selCust : Option String)
    (search : String) : List Row3 :=
  applyFilters
    ((annotate3 rows).filter
      (fun r => !(r.productCategory == "Other Bulk Orders")))
    selProd selCust search

/-- The per-tier slice feeding one heatmap
(`heatmap_data[heatmap_data["Customer Type"] == customer_type]`). -/
def sub_df (rows : List Row) (selProd selCust : Option String)
    (search tier : String) : List Row3 :=
  (heatmap_data rows selProd selCust search).filter
    (fun r => r.customerType == tier)

/-- The month columns of one heatmap after
`pivot[pd.to_datetime(pivot.columns, format="%b %y").sort_values().strftime("%b %y")]`:
the pivot's lexicographically ordered label columns are parsed back,
sorted chronologically, and reformatted. -/
def heatmapMonthCols (rows : List Row) (selProd selCust : Option String)
    (search tier : String) : List String :=
  let cols := sortedKeys
    ((sub_df rows selProd selCust search tier).filterMap Row3.month)
  (List.insertionSort monthKeyLE (cols.filterMap parseMonthLabel)).map fmtLabel

/-- C6 counterexample data: the same product bought in December 2023 and
in April 2024. -/
def decRow : Row := ⟨"CH1", "2023-12-05", "A", "simba", 1, 100⟩

/-- Companion row of `decRow` dated April 2024. -/
def aprRow : Row := ⟨"CH2", "2024-04-10", "A", "simba", 1, 100⟩

/-- The quantity cells of the pivot of `streamlit_app_3.py`: one cell per
distinct (Product Category, Item Name, Month) group of the filtered
view, holding the summed QuantityOrdered.  groupby drops rows with a
missing month; `unstack(fill_value=0)` additionally materialises
all-zero cells, which add nothing to any cell sum and are omitted here;
the Total Qty and Total Cost columns are separate columns, not month
cells. -/
def pivotCells (rows : List Row) (selProd selCust : Option String)
    (search : String) : List ((String × String × String) × ℚ) :=
  let data := filtered_df rows selProd selCust search
  let keys := (data.filterMap (fun r =>
    r.month.map (fun m => (r.productCategory, r.row.itemName, m)))).dedup
  keys.map (fun k => (k,
    ((data.filter (fun r => r.productCategory == k.1
        && r.row.itemName == k.2.1 && r.month == some k.2.2)).map
      (fun r => r.row.qty)).sum))

/-- The sum of every quantity cell of the pivot. -/
def pivotCellSum (rows : List Row) (selProd selCust : Option String)
    (search : String) : ℚ :=
  ((pivotCells rows selProd selCust search).map Prod.snd).sum

/-- One heatmap item row's total quantity over the months carrying a
label (`pivot_table` drops rows with a missing month). -/
def heatmapItemTotal (data : List Row3) (item : String) : ℚ :=
  ((data.filter (fun r => r.row.itemName == item && r.month.isSome)).map
    (fun r => r.row.qty)).sum

/-- The sum of every cell of one per-tier heatmap matrix: each kept item
row contributes the sum of its month cells, and item rows without a
positive total are dropped (`pivot.loc[pivot.sum(axis=1) > 0]`). -/
def heatmapCellSum (rows : List Row) (selProd selCust : Option String)
    (search tier : String) : ℚ :=
  let data := sub_df rows selProd selCust search tier
  let items := (data.map (fun r => r.row.itemName)).dedup
  ((items.filter (fun i => decide (0 < heatmapItemTotal data i))).map
    (fun i => heatmapItemTotal data i)).sum

/-- C10 data: an "Other Bulk Orders" purchase and a Bio-Stimulants
purchase by the same (Copper) customer. -/
def bulkRow : Row := ⟨"CH1", "2024-01-05", "A", "calcimag", 5, 100⟩

/-- Companion Bio-Stimulants purchase of `bulkRow`'s customer. -/
def stimRow : Row := ⟨"CH2", "2024-01-05", "A", "simba", 2, 50⟩

/-- C1: classify_customer returns "Gold" exactly on spend above 1,000,000,
"Silver" exactly on (500,000, 1,000,000], "Bronze" exactly on
(100,000, 500,000], and "Copper" exactly on spend at most 100,000,
negative inputs included; being a total function on ℚ it fails on no
input. -/
theorem C1_classify_customer_thresholds (s : ℚ) :
    (classify_customer s = "Gold" ↔ 1000000 < s) ∧
    (classify_customer s = "Silver" ↔ 500000 < s ∧ s ≤ 1000000) ∧
    (classify_customer s = "Bronze" ↔ 100000 < s ∧ s ≤ 500000) ∧
    (classify_customer s = "Copper" ↔ s ≤ 100000) := by
  unfold classify_customer
  split_ifs with h1 h2 h3 <;>
    refine ⟨?_, ?_, ?_, ?_⟩ <;> constructor <;> intro h <;>
    first
      | rfl
      | linarith
      | (exact absurd h (by decide))
      | (exact ⟨by linarith, by linarith⟩)

/-- Looking a key up in an association list yields nothing when the key is
none of the stored keys. -/
lemma lookup_eq_none_of_not_key {l : List (String × String)} {k : String}
    (h : ∀ p ∈ l, k ≠ p.1) : l.lookup k = none := by
  induction l with
  | nil => rfl
  | cons p t ih =>
    obtain ⟨a, b⟩ := p
    have hk : (k == a) = false := by
      simpa using h (a, b) (List.mem_cons_self _ _)
    simp only [List.lookup, hk]
    exact ih fun q hq => h q (List.mem_cons_of_mem _ hq)

/-- Every binding of the flattened dict comes from some category list of
the static map. -/
lemma mem_item_to_category {q : String × String} (hq : q ∈ item_to_category) :
    ∃ p ∈ category_map, q.1 ∈ p.2 := by
  unfold item_to_category at hq
  simp only [List.mem_flatten, List.mem_map] at hq
  obtain ⟨l, ⟨p, hp, rfl⟩, hql⟩ := hq
  obtain ⟨item, hitem, rfl⟩ := List.mem_map.mp hql
  exact ⟨p, hp, hitem⟩

/-- C2: every item name listed in the static category map is categorized
as the category it is listed under, every other string is categorized as
"Uncategorized", and categorization is a total function that cannot fail. -/
theorem C2_categorize_matches_map :
    (∀ p ∈ category_map, ∀ item ∈ p.2, categorize item = p.1) ∧
    (∀ s : String, (∀ p ∈ category_map, s ∉ p.2) →
      categorize s = "Uncategorized") := by
  constructor
  · decide
  · intro s hs
    unfold categorize
    have hnone : item_to_category.reverse.lookup s = none := by
      apply lookup_eq_none_of_not_key
      intro q hq
      obtain ⟨p, hp, hmem⟩ := mem_item_to_category (List.mem_reverse.mp hq)
      intro hks
      exact hs p hp (hks ▸ hmem)
    rw [hnone]
    rfl

/-- Concrete instances of C2: a mapped name ("simba" is listed under
"Bio-Stimulants") and an unmapped one. -/
theorem C2_witness :
    categorize "simba" = "Bio-Stimulants" ∧
    categorize "unknown product" = "Uncategorized" := by
  refine ⟨?_, C2_categorize_matches_map.2 "unknown product" (by decide)⟩
  exact C2_categorize_matches_map.1 (category_map.get ⟨3, by decide⟩)
    (category_map.get_mem _ _) "simba" (by decide)

/-- Splitting a list by a Boolean predicate splits its mapped sum. -/
lemma sum_map_filter_add (p : Row → Bool) (f : Row → ℚ) (l : List Row) :
    ((l.filter p).map f).sum + ((l.filter (fun r => !p r)).map f).sum
      = (l.map f).sum := by
  induction l with
  | nil => simp
  | cons r t ih =>
    by_cases h : p r
    · simp [List.filter_cons, h]
      rw [← ih]
      ring
    · simp [List.filter_cons, h]
      rw [← ih]
      ring

/-- Grouping rows by a list of keys that covers every row exactly once
partitions the mapped sum: the sum of per-key group sums is the total. -/
lemma sum_groups_eq (keys : List String) (rows : List Row) (f : Row → ℚ)
    (hnd : keys.Nodup) (hcov : ∀ r ∈ rows, r.customerName ∈ keys) :
    (keys.map
      (fun c => ((rows.filter (fun r => r.customerName == c)).map f).sum)).sum
      = (rows.map f).sum := by
  induction keys generalizing rows with
  | nil =>
    have hrows : rows = [] := by
      cases rows with
      | nil => rfl
      | cons r t => exact absurd (hcov r (List.mem_cons_self _ _)) (by simp)
    simp [hrows]
  | cons k ks ih =>
    have hknotin : k ∉ ks := (List.nodup_cons.mp hnd).1
    set rest := rows.filter (fun r => !(r.customerName == k)) with hrest
    have hstep : ∀ c ∈ ks,
        rows.filter (fun r => r.customerName == c)
          = rest.filter (fun r => r.customerName == c) := by
      intro c hc
      rw [hrest, List.filter_filter]
      apply List.filter_congr
      intro r _
      cases hrc : (r.customerName == c) with
      | false => simp
      | true =>
        have : r.customerName = c := by simpa using hrc
        have : (r.customerName == k) = false := by
          simp [this]
          intro hck
          exact hknotin (hck ▸ hc)
        simp [this]
    have hcov' : ∀ r ∈ rest, r.customerName ∈ ks := by
      intro r hr
      rw [hrest] at hr
      obtain ⟨hrin, hne⟩ := List.mem_filter.mp hr
      have := hcov r hrin
      simp only [Bool.not_eq_true', beq_eq_false_iff_ne] at hne
      cases List.mem_cons.mp this with
      | inl h => exact absurd h hne
      | inr h => exact h
    have hmaps : ks.map
        (fun c => ((rows.filter (fun r => r.customerName == c)).map f).sum)
        = ks.map
        (fun c => ((rest.filter (fun r => r.customerName == c)).map f).sum) := by
      apply List.map_congr_left
      intro c hc
      rw [hstep c hc]
    rw [List.map_cons, List.sum_cons, hmaps,
      ih rest (List.nodup_cons.mp hnd).2 hcov']
    exact sum_map_filter_add (fun r => r.customerName == k) f rows

/-- Every row's customer name is one of the sorted group keys. -/
lemma mem_sortedKeys_of_mem {rows : List Row} {r : Row} (h : r ∈ rows) :
    r.customerName ∈ sortedKeys (rows.map Row.customerName) := by
  unfold sortedKeys
  rw [(List.perm_insertionSort _ _).mem_iff, List.mem_dedup]
  exact List.mem_map_of_mem _ h

/-- The sorted group keys list names each customer once. -/
lemma nodup_sortedKeys (l : List String) : (sortedKeys l).Nodup :=
  ((List.perm_insertionSort _ _).nodup_iff).mpr (List.nodup_dedup l)

/-- C7: the per-dealer Total Sales values of the unfiltered Dealer
Summary sum to the item-total sum of the whole dataset, both for
`dealer_stats` of `streamlit_app.py` and for the Total Order Amount
column of the `summary` table of `streamlit_app_2.py`. -/
theorem C7_dealer_totals_partition (rows : List Row) :
    ((dealer_stats rows).map DealerRow.totalSales).sum
        = (rows.map Row.itemTotal).sum ∧
    ((summary2 rows).map SummaryRow.totalOrderAmount).sum
        = (rows.map Row.itemTotal).sum := by
  have hkey := sum_groups_eq (sortedKeys (rows.map Row.customerName)) rows
    Row.itemTotal (nodup_sortedKeys _) (fun r hr => mem_sortedKeys_of_mem hr)
  constructor
  · have hperm : List.Perm ((dealer_stats rows).map DealerRow.totalSales)
        ((dealer_stats_unsorted rows).map DealerRow.totalSales) :=
      (List.perm_insertionSort _ _).map _
    rw [hperm.sum_eq]
    unfold dealer_stats_unsorted
    rw [List.map_map]
    exact hkey
  · unfold summary2
    rw [List.map_map]
    exact hkey

/-- C3 evidence: on a customer subset whose item totals sum to zero,
`streamlit_app.py` divides by the zero total and its category-share
percentage is not a number (`none`, the non-finite outcome of 0/0),
contrary to the specified 0%; the guarded computation of
`streamlit_app_2.py` does yield 0% for every category. -/
theorem C3_zero_total_share :
    category_share [zeroTotalRow] "A"
        = [⟨"Bio-Stimulants", 0, none⟩] ∧
    (∀ cat : String, pct_full [zeroTotalRow] cat "A" = 0) := by
  have hcat : categorize "simba" = "Bio-Stimulants" := by decide
  constructor
  · simp [category_share, rowsOf, sortedKeys, zeroTotalRow, hcat,
      List.insertionSort, List.orderedInsert]
  · intro cat
    have htot : totalSpend [zeroTotalRow] "A" = 0 := by
      simp [totalSpend, rowsOf, zeroTotalRow]
    unfold pct_full
    rw [htot]
    simp only [if_pos rfl]
    have hamt : amt_full [zeroTotalRow] cat "A" = 0 := by
      unfold amt_full
      cases h : (categorize "simba" == cat) with
      | true => simp [List.filter_cons, zeroTotalRow, h]
      | false => simp [List.filter_cons, zeroTotalRow, h]
    rw [hamt]
    norm_num

/-- C4 evidence: on a row with an unparseable challan date,
`streamlit_app.py` dies at load (`pd.to_datetime` with the default
errors="raise"), so the claimed never-fatal handling fails there; under
the errors="coerce" treatment of `streamlit_app_3.py` the same row
carries a null month and is still counted by every aggregate that needs
no month: dealer totals and order counts, the tier summary row, and the
category share. -/
theorem C4_unparseable_date :
    to_datetime_strict [badDateRow] = none ∧
    rowMonth badDateRow = none ∧
    dealer_stats [badDateRow] = [⟨"A", 500, 1⟩] ∧
    summary2 [badDateRow] = [⟨"A", 1, 500, "Copper"⟩] ∧
    category_share [badDateRow] "A" = [⟨"Bio-Stimulants", 500, some 100⟩] := by
  have hcat : categorize "simba" = "Bio-Stimulants" := by decide
  have hclass : classify_customer 500 = "Copper" := by
    norm_num [classify_customer]
  refine ⟨rfl, rfl, ?_, ?_, ?_⟩
  · simp [dealer_stats, dealer_stats_unsorted, sortedKeys, totalSpend,
      nuniqueChallans, rowsOf, badDateRow, List.insertionSort,
      List.orderedInsert]
  · simp [summary2, sortedKeys, totalSpend, nuniqueChallans, rowsOf,
      badDateRow, hclass, List.insertionSort, List.orderedInsert]
  · have hround : round1 (100 : ℚ) = 100 := by
      norm_num [round1, roundHalfEven]
    simp [category_share, rowsOf, sortedKeys, badDateRow, hcat,
      List.insertionSort, List.orderedInsert, hround]

/-- The empty needle occurs in every string. -/
lemma strContains_empty_needle (s : String) : strContains s "" = true := by
  unfold strContains
  cases s.toList with
  | nil => rfl
  | cons c t => rfl

/-- C8: substring filters with the empty search string are identity
operations: the dealer search of `streamlit_app.py` run with "" keeps
every row, and `filtered_df` of `streamlit_app_3.py` with an empty
search term equals the view built with no search filter at all. -/
theorem C8_empty_search_is_identity (stats : List DealerRow)
    (rows : List Row) (selProd selCust : Option String) :
    filtered_dealers stats "" = stats ∧
    filtered_df rows selProd selCust ""
      = filtered_df_nosearch rows selProd selCust := by
  constructor
  · unfold filtered_dealers
    apply List.filter_eq_self.mpr
    intro r _
    exact strContains_empty_needle _
  · rfl

/-- Rows surviving the three filter blocks come from the unfiltered
annotated table. -/
lemma mem_of_mem_applyFilters {l : List Row3} {sp sc : Option String}
    {search : String} {r : Row3}
    (h : r ∈ applyFilters l sp sc search) : r ∈ l := by
  unfold applyFilters at h
  cases sp <;> cases sc <;> dsimp at h <;> split_ifs at h <;>
    first
      | exact h
      | exact List.mem_of_mem_filter h
      | exact List.mem_of_mem_filter (List.mem_of_mem_filter h)
      | exact List.mem_of_mem_filter
          (List.mem_of_mem_filter (List.mem_of_mem_filter h))

/-- C9: a row's tier is the classifier applied to its customer's total
item-total over the full dataset, fixed at annotation time; rows and
summary lines surviving any combination of category, tier, name, or
search filters keep exactly that tier, in `streamlit_app_3.py` and
`streamlit_app_2.py` alike. -/
theorem C9_tier_from_full_dataset (rows : List Row)
    (selP selC : Option String) (search : String)
    (selT selN : Option String) (r : Row3) (s : SummaryRow) :
    (r ∈ filtered_df rows selP selC search →
      r.customerType = classify_customer (totalSpend rows r.row.customerName)) ∧
    (s ∈ filtered_summary2 rows selT selN →
      s.customerType = classify_customer (totalSpend rows s.customerName)) := by
  constructor
  · intro h
    have hmem : r ∈ annotate3 rows := mem_of_mem_applyFilters h
    obtain ⟨r0, _, rfl⟩ := List.mem_map.mp hmem
    rfl
  · intro h
    have hmem : s ∈ summary2 rows := by
      unfold filtered_summary2 at h
      cases selT <;> cases selN <;> dsimp at h <;>
        first
          | exact h
          | exact List.mem_of_mem_filter h
          | exact List.mem_of_mem_filter (List.mem_of_mem_filter h)
    unfold summary2 at hmem
    obtain ⟨c, _, rfl⟩ := List.mem_map.mp hmem
    rfl

/-- Concrete instance of C9: the annotated row survives a category
filter and the summary line survives a tier filter, both keeping the
tier computed from the full dataset's total. -/
theorem C9_witness :
    tierRow3.customerType = classify_customer (totalSpend [tierRow] "A") ∧
    (⟨"A", 1, 1000, "Copper"⟩ : SummaryRow).customerType
      = classify_customer (totalSpend [tierRow] "A") := by
  have hcat : categorize "simba" = "Bio-Stimulants" := by decide
  have h := C9_tier_from_full_dataset [tierRow] (some "Bio-Stimulants") none ""
    (some "Copper") none tierRow3 ⟨"A", 1, 1000, "Copper"⟩
  refine ⟨h.1 ?_, h.2 ?_⟩
  · simp [filtered_df, applyFilters, annotate3, tierRow3, tierRow, hcat]
    norm_num [totalSpend, rowsOf, classify_customer]
  · simp [filtered_summary2, summary2, sortedKeys, nuniqueChallans, rowsOf,
      tierRow, List.insertionSort, List.orderedInsert]
    norm_num [totalSpend, rowsOf, classify_customer]

/-- A digit rendered by `Nat.digitChar` reads back as itself. -/
lemma digit?_digitChar {x : ℕ} (hx : x < 10) :
    digit? (Nat.digitChar x) = some x := by
  interval_cases x <;> decide

/-- Parsed digits are below 10. -/
lemma digit?_lt {c : Char} {x : ℕ} (h : digit? c = some x) : x < 10 := by
  unfold digit? at h
  split at h
  · rename_i hc
    injection h with h
    omega
  · exact absurd h (by simp)

set_option maxHeartbeats 2000000 in
/-- Months parsed by the %b table lie in 1..12. -/
lemma parseMonth3_bounds {s : String} {m : ℕ} (h : parseMonth3 s = some m) :
    1 ≤ m ∧ m ≤ 12 := by
  unfold parseMonth3 at h
  split_ifs at h <;> (injection h with h) <;> omega

/-- Round trip: a label that parses reformats to a label carrying the
same (two-digit year, month) key. -/
lemma parseMonthLabel_fmtLabel {s : String} {p : ℕ × ℕ}
    (h : parseMonthLabel s = some p) :
    parseMonthLabel (fmtLabel p) = some p := by
  unfold parseMonthLabel at h
  split at h
  case h_2 => exact absurd h (by simp)
  case h_1 a b c d1 d2 =>
    split at h
    case h_2 => exact absurd h (by simp)
    case h_1 m x y hm hx hy =>
      injection h with h
      subst h
      have hxlt := digit?_lt hx
      have hylt := digit?_lt hy
      obtain ⟨hm1, hm2⟩ := parseMonth3_bounds hm
      have hx10 : (x * 10 + y) / 10 % 10 = x := by omega
      have hy10 : (x * 10 + y) % 10 = y := by omega
      interval_cases m <;>
        simp [fmtLabel, monthAbbrevs, twoDigit, parseMonthLabel, parseMonth3,
          String.toList, hx10, hy10, digit?_digitChar hxlt,
          digit?_digitChar hylt]

/-- C6 counterexample: with data in Dec 2023 and Apr 2024 and no filter
selected, the quantity pivot's month columns come out in label-string
order, "Apr 24" before "Dec 23", although December 2023 precedes April
2024 in the calendar — so not every month-indexed view is in calendar
order. -/
theorem C6_counterexample :
    pivotMonthCols [decRow, aprRow] none none "" = ["Apr 24", "Dec 23"] ∧
    ¬ List.Sorted labelCalendarLE
      (pivotMonthCols [decRow, aprRow] none none "") := by
  have hm1 : rowMonth decRow = some "Dec 23" := by decide
  have hm2 : rowMonth aprRow = some "Apr 24" := by decide
  have hne : ("Apr 24" : String) ≠ "Dec 23" := by decide
  have hml1 : monthLabel ⟨2023, 12, 5⟩ = "Dec 23" := by decide
  have hml2 : monthLabel ⟨2024, 4, 10⟩ = "Apr 24" := by decide
  have hd : ¬ (("Dec 23" : String).data ≤ ("Apr 24" : String).data) := by
    decide
  have hcols : pivotMonthCols [decRow, aprRow] none none ""
      = ["Apr 24", "Dec 23"] := by
    simp [pivotMonthCols, filtered_df, applyFilters, annotate3, sortedKeys,
      hm1, hm2, hne, hml1, hml2, hd, List.insertionSort, List.orderedInsert]
  refine ⟨hcols, ?_⟩
  rw [hcols]
  intro hsort
  have hrel : labelCalendarLE "Apr 24" "Dec 23" :=
    List.rel_of_sorted_cons hsort "Dec 23" (by simp)
  obtain ⟨p, q, hp, hq, hle⟩ := hrel
  have hpv : parseMonthLabel "Apr 24" = some (24, 4) := by decide
  have hqv : parseMonthLabel "Dec 23" = some (23, 12) := by decide
  rw [hpv] at hp
  rw [hqv] at hq
  injection hp with hp
  injection hq with hq
  subst hp
  subst hq
  simp [monthKeyLE, canonYear] at hle

/-- C6 amended: the heatmap's month columns are sorted in calendar order
of the underlying dates (across year boundaries, by construction from
the parsed labels), while the quantity pivot's month columns are only
sorted lexicographically by their formatted label strings. -/
theorem C6_heatmap_calendar_pivot_lexicographic (rows : List Row)
    (selP selC : Option String) (search tier : String) :
    List.Sorted labelCalendarLE
      (heatmapMonthCols rows selP selC search tier) ∧
    List.Sorted (· ≤ ·) (pivotMonthCols rows selP selC search) := by
  constructor
  · unfold heatmapMonthCols
    show List.Pairwise _ _
    rw [List.pairwise_map]
    refine List.Pairwise.imp_of_mem (fun {p q} hp hq hle => ?_)
      (List.sorted_insertionSort _ _)
    have hp' := (List.perm_insertionSort monthKeyLE _).mem_iff.mp hp
    have hq' := (List.perm_insertionSort monthKeyLE _).mem_iff.mp hq
    obtain ⟨sp, _, hsp⟩ := List.mem_filterMap.mp hp'
    obtain ⟨sq, _, hsq⟩ := List.mem_filterMap.mp hq'
    exact ⟨p, q, parseMonthLabel_fmtLabel hsp, parseMonthLabel_fmtLabel hsq,
      hle⟩
  · exact List.sorted_insertionSort _ _

/-- C10: every row fed to any per-tier heatmap has a product category
other than "Other Bulk Orders" whatever filters are selected, while the
quantity pivot built from the same filters keeps such rows: on the
concrete dataset with a 5-unit calcimag order and a 2-unit simba order,
the pivot's cells sum to 7 but the Copper heatmap's cells sum to 2. -/
theorem C10_heatmap_excludes_bulk_orders :
    (∀ (rows : List Row) (selP selC : Option String) (search tier : String)
      (r : Row3), r ∈ sub_df rows selP selC search tier →
        r.productCategory ≠ "Other Bulk Orders") ∧
    pivotCellSum [bulkRow, stimRow] none none "" = 7 ∧
    heatmapCellSum [bulkRow, stimRow] none none "" "Copper" = 2 ∧
    (7 : ℚ) ≠ 2 := by
  have hc1 : categorize bulkRow.itemName = "Other Bulk Orders" := by decide
  have hc2 : categorize stimRow.itemName = "Bio-Stimulants" := by decide
  have hn1 : bulkRow.customerName = "A" := rfl
  have hn2 : stimRow.customerName = "A" := rfl
  have hq1 : bulkRow.qty = 5 := rfl
  have hq2 : stimRow.qty = 2 := rfl
  have hm1 : rowMonth bulkRow = some "Jan 24" := by decide
  have hm2 : rowMonth stimRow = some "Jan 24" := by decide
  have hi1 : bulkRow.itemName = "calcimag" := rfl
  have hi2 : stimRow.itemName = "simba" := rfl
  have htot : totalSpend [bulkRow, stimRow] "A" = 150 := by
    simp [totalSpend, rowsOf, bulkRow, stimRow]
    norm_num
  have hclass : classify_customer 150 = "Copper" := by
    norm_num [classify_customer]
  have hcl1 : categorize "calcimag" = "Other Bulk Orders" := by decide
  have hcl2 : categorize "simba" = "Bio-Stimulants" := by decide
  have hni1 : ("calcimag" : String) ≠ "simba" := by decide
  have hni2 : ("simba" : String) ≠ "calcimag" := by decide
  have hpos : decide ((0 : ℚ) < 2) = true := by
    rw [decide_eq_true_eq]
    norm_num
  refine ⟨?_, ?_, ?_, by norm_num⟩
  · intro rows selP selC search tier r hr
    have h1 : r ∈ heatmap_data rows selP selC search :=
      List.mem_of_mem_filter hr
    have h2 : r ∈ (annotate3 rows).filter
        (fun q => !(q.productCategory == "Other Bulk Orders")) :=
      mem_of_mem_applyFilters h1
    have h3 := (List.mem_filter.mp h2).2
    simpa using h3
  · simp [pivotCellSum, pivotCells, filtered_df, applyFilters, annotate3,
      hc1, hc2, hn1, hn2, hq1, hq2, hm1, hm2, hi1, hi2, htot, hclass]
    norm_num
  · simp [heatmapCellSum, sub_df, heatmap_data, applyFilters, annotate3,
      heatmapItemTotal, hc1, hc2, hcl1, hcl2, hn1, hn2, hq1, hq2, hm1, hm2,
      hi1, hi2, hni1, hni2, htot, hclass, hpos]

/-- Concrete instance of the universal part of C10: the simba row of the
Copper heatmap slice is not an "Other Bulk Orders" row. -/
theorem C10_witness :
    (⟨stimRow, "Bio-Stimulants", "Copper", some "Jan 24"⟩ : Row3).productCategory
      ≠ "Other Bulk Orders" := by
  have htot : totalSpend [bulkRow, stimRow] "A" = 150 := by
    simp [totalSpend, rowsOf, bulkRow, stimRow]
    norm_num
  have hclass : classify_customer 150 = "Copper" := by
    norm_num [classify_customer]
  have hc1 : categorize bulkRow.itemName = "Other Bulk Orders" := by decide
  have hc2 : categorize stimRow.itemName = "Bio-Stimulants" := by decide
  have hm2 : rowMonth stimRow = some "Jan 24" := by decide
  have hn2 : stimRow.customerName = "A" := rfl
  refine C10_heatmap_excludes_bulk_orders.1 [bulkRow, stimRow] none none ""
    "Copper" _ ?_
  simp [sub_df, heatmap_data, applyFilters, annotate3, hc1, hc2, hm2, hn2,
    htot, hclass]
